import Mathlib

/-!
Verification development for the HotelFinder web client.

The definitions below are a shallow embedding of the client's data model and
of the operations exercised by the specification: the Zustand hotel store
(`store/hotelStore.js`), the Explore Section's recommendation request handler
(`components/ExploreSection.jsx`), and the Hotel Details page's price and
star-rendering computations (`pages/HotelDetails.jsx`, `pages/SearchResults.jsx`).

JavaScript conventions are modelled explicitly:
* a possibly-absent (`undefined`) field is an `Option`;
* a JS truthiness test on a numeric/string/array field collapses `undefined`,
  `0`, `""` and emptiness checks as written at each use site;
* `Number` values that are exact decimals in the source (ratings) are `ℚ`,
  written with `mkRat` so that they evaluate by `decide`;
* integer prices are `Nat` (they are non-negative literals in the source),
  and money/night totals that can go negative are `Int`.
-/

namespace HotelFinder

/-- Substring test on character lists: `containsSub hay pat` is `true` iff
`pat` occurs contiguously inside `hay` (the semantics of JS
`String.prototype.includes`). -/
def containsSub (hay pat : List Char) : Bool :=
  pat.isPrefixOf hay ||
    (match hay with
     | [] => false
     | _ :: t => containsSub t pat)

/-- Lower-cased character list of a string; models JS `toLowerCase()` for the
ASCII data in this repository. -/
def lowerChars (s : String) : List Char :=
  s.data.map Char.toLower

/-- Case-insensitive containment, the idiom
`hay.toLowerCase().includes(needle.toLowerCase())` used throughout the store. -/
def containsCI (hay needle : String) : Bool :=
  containsSub (lowerChars hay) (lowerChars needle)

/-- Room type record of a hotel (`roomTypes` entries in `store/hotelStore.js`). -/
structure RoomType where
  type : String
  price : Nat
  description : String
  features : List String
deriving DecidableEq, Repr

/-- Policies record of a hotel. -/
structure Policies where
  checkIn : String
  checkOut : String
  cancellation : String
  pets : String
deriving DecidableEq, Repr

/-- Hotel record, as in the sample data of `store/hotelStore.js`. -/
structure Hotel where
  id : Nat
  name : String
  slug : String
  location : String
  price : Nat
  rating : ℚ
  reviews : Nat
  images : List String
  description : String
  amenities : List String
  roomTypes : List RoomType
  policies : Policies
deriving DecidableEq, Repr

/-- First sample hotel of the catalog. -/
def grandPalaceHotel : Hotel where
  id := 1
  name := "Grand Palace Hotel"
  slug := "grand-palace-hotel"
  location := "New York, NY"
  price := 299
  rating := mkRat 48 10
  reviews := 1250
  images :=
    [ "https://images.unsplash.com/photo-1566073771259-6a8506099945?w=800"
    , "https://images.unsplash.com/photo-1564501049412-61c2a3083791?w=800"
    , "https://images.unsplash.com/photo-1582719478250-c89cae4dc85b?w=800" ]
  description := "Experience luxury at its finest in the heart of Manhattan. This elegant hotel offers world-class amenities, exceptional service, and breathtaking city views."
  amenities :=
    [ "Free Wi-Fi", "Swimming Pool", "Fitness Center", "Spa & Wellness"
    , "Restaurant", "Room Service", "Business Center", "Concierge" ]
  roomTypes :=
    [ { type := "Standard Room", price := 299
      , description := "Comfortable room with city view"
      , features := ["King Bed", "City View", "32\" TV", "Mini Bar"] }
    , { type := "Deluxe Suite", price := 499
      , description := "Spacious suite with premium amenities"
      , features := ["King Bed", "Living Area", "City View", "Balcony", "Premium Amenities"] }
    , { type := "Presidential Suite", price := 899
      , description := "Ultimate luxury with panoramic views"
      , features := ["Master Bedroom", "Living Room", "Dining Area", "Panoramic View", "Butler Service"] } ]
  policies :=
    { checkIn := "3:00 PM", checkOut := "11:00 AM"
    , cancellation := "Free cancellation up to 24 hours before check-in"
    , pets := "Pet-friendly (additional charges may apply)" }

/-- Second sample hotel of the catalog. -/
def oceanviewResort : Hotel where
  id := 2
  name := "Oceanview Resort"
  slug := "oceanview-resort"
  location := "Miami, FL"
  price := 399
  rating := mkRat 46 10
  reviews := 890
  images :=
    [ "https://images.unsplash.com/photo-1571896349842-33c89424de2d?w=800"
    , "https://images.unsplash.com/photo-1520250497591-112f2f40a3f4?w=800"
    , "https://images.unsplash.com/photo-1584132967334-10e028bd69f7?w=800" ]
  description := "Relax and unwind at this beautiful beachfront resort with stunning ocean views, pristine beaches, and tropical paradise atmosphere."
  amenities :=
    [ "Beach Access", "Swimming Pool", "Water Sports", "Spa & Wellness"
    , "Multiple Restaurants", "Bars & Lounges", "Kids Club", "Tennis Court" ]
  roomTypes :=
    [ { type := "Ocean View Room", price := 399
      , description := "Beautiful room overlooking the ocean"
      , features := ["Queen Bed", "Ocean View", "Balcony", "Mini Fridge"] }
    , { type := "Beach Villa", price := 699
      , description := "Private villa steps from the beach"
      , features := ["King Bed", "Private Terrace", "Direct Beach Access", "Outdoor Shower"] } ]
  policies :=
    { checkIn := "4:00 PM", checkOut := "12:00 PM"
    , cancellation := "Free cancellation up to 48 hours before check-in"
    , pets := "No pets allowed" }

/-- Third sample hotel of the catalog. -/
def mountainLodgeRetreat : Hotel where
  id := 3
  name := "Mountain Lodge Retreat"
  slug := "mountain-lodge-retreat"
  location := "Aspen, CO"
  price := 249
  rating := mkRat 47 10
  reviews := 567
  images :=
    [ "https://images.unsplash.com/photo-1551882547-ff40c63fe5fa?w=800"
    , "https://images.unsplash.com/photo-1506905925346-21bda4d32df4?w=800"
    , "https://images.unsplash.com/photo-1445019980597-93fa8acb246c?w=800" ]
  description := "Escape to the mountains and enjoy cozy accommodations surrounded by pristine wilderness, perfect for outdoor enthusiasts and nature lovers."
  amenities :=
    [ "Ski Access", "Fireplace Lounge", "Hot Tub", "Hiking Trails"
    , "Restaurant", "Game Room", "Ski Equipment Rental", "Mountain Views" ]
  roomTypes :=
    [ { type := "Cozy Cabin Room", price := 249
      , description := "Rustic charm with modern comfort"
      , features := ["Queen Bed", "Fireplace", "Mountain View", "Balcony"] }
    , { type := "Lodge Suite", price := 449
      , description := "Spacious suite with premium mountain views"
      , features := ["King Bed", "Living Area", "Fireplace", "Private Hot Tub"] } ]
  policies :=
    { checkIn := "4:00 PM", checkOut := "11:00 AM"
    , cancellation := "Free cancellation up to 72 hours before check-in"
    , pets := "Pet-friendly (with restrictions)" }

/-- Sample hotel data seeded into the store (`sampleHotels` in
`store/hotelStore.js`). -/
def sampleHotels : List Hotel :=
  [grandPalaceHotel, oceanviewResort, mountainLodgeRetreat]

/-- Search filter object of the store.  Every field is an `Option` because a
caller of `searchHotels` may pass an object missing any of the fields (the
default argument is the empty object `{}`); the store's own `filters` state
always has all five fields present. -/
structure Filters where
  minPrice : Option Nat
  maxPrice : Option Nat
  location : Option String
  minRating : Option ℚ
  amenities : Option (List String)
deriving DecidableEq, Repr

/-- Default filters held by the store
(`minPrice 0, maxPrice 1000, location "", minRating 0, amenities []`). -/
def defaultFilters : Filters where
  minPrice := some 0
  maxPrice := some 1000
  location := some ""
  minRating := some 0
  amenities := some []

/-- Empty filter object `{}`: every field absent (JS `undefined`). -/
def noFilters : Filters where
  minPrice := none
  maxPrice := none
  location := none
  minRating := none
  amenities := none

/-- Free-text match used by `searchHotels` when the query is non-empty:
query contained case-insensitively in name, location or description. -/
def queryMatches (query : String) (hotel : Hotel) : Bool :=
  containsCI hotel.name query ||
  containsCI hotel.location query ||
  containsCI hotel.description query

/-- Amenity predicate of `searchHotels`: every requested amenity matches some
hotel amenity case-insensitively. -/
def amenitiesMatch (requested : List String) (hotel : Hotel) : Bool :=
  requested.all (fun amenity =>
    hotel.amenities.any (fun hotelAmenity => containsCI hotelAmenity amenity))

/-- The store's `searchHotels(query, filters)`.  Each stage reproduces one
`if (...) { filteredHotels = filteredHotels.filter(...) }` block of the
source; the `if` conditions are the JS truthiness tests, under which an
absent field (`Option.getD` default) and a falsy present value behave the
same. -/
def searchHotels (hotels : List Hotel) (query : String) (f : Filters) : List Hotel :=
  let minP := f.minPrice.getD 0
  let maxP := f.maxPrice.getD 0
  let locF := f.location.getD ""
  let minR := f.minRating.getD 0
  let amenF := f.amenities.getD []
  let l0 := if query ≠ "" then hotels.filter (fun h => queryMatches query h) else hotels
  let l1 := if minP ≠ 0 then l0.filter (fun h => decide (minP ≤ h.price)) else l0
  let l2 := if maxP ≠ 0 then l1.filter (fun h => decide (h.price ≤ maxP)) else l1
  let l3 := if locF ≠ "" then l2.filter (fun h => containsCI h.location locF) else l2
  let l4 := if minR ≠ 0 then l3.filter (fun h => decide (minR ≤ h.rating)) else l3
  let l5 := if amenF.length > 0 then l4.filter (fun h => amenitiesMatch amenF h) else l4
  l5

/-- Specification-side search predicate, written from the spec's words: a
hotel is returned exactly when it satisfies the free-text query (if
non-empty) and every filter predicate that is set (a filter field counts as
set when it is present and not falsy). -/
def searchSpecHolds (query : String) (f : Filters) (h : Hotel) : Bool :=
  (if query ≠ "" then queryMatches query h else true) &&
  (if f.minPrice.getD 0 ≠ 0 then decide (f.minPrice.getD 0 ≤ h.price) else true) &&
  (if f.maxPrice.getD 0 ≠ 0 then decide (h.price ≤ f.maxPrice.getD 0) else true) &&
  (if f.location.getD "" ≠ "" then containsCI h.location (f.location.getD "") else true) &&
  (if f.minRating.getD 0 ≠ 0 then decide (f.minRating.getD 0 ≤ h.rating) else true) &&
  (if (f.amenities.getD []).length > 0 then amenitiesMatch (f.amenities.getD []) h else true)

/-- The store's `addToFavorites`: append the id unless already present. -/
def addToFavorites (favorites : List Nat) (hotelId : Nat) : List Nat :=
  if favorites.contains hotelId then favorites else favorites ++ [hotelId]

/-- The store's `removeFromFavorites`: keep the ids different from the one
removed. -/
def removeFromFavorites (favorites : List Nat) (hotelId : Nat) : List Nat :=
  favorites.filter (fun id => id ≠ hotelId)

/-- The store's `isFavorite`: membership test. -/
def isFavorite (favorites : List Nat) (hotelId : Nat) : Bool :=
  favorites.contains hotelId

/-- The store's `getHotelById`: first hotel whose id matches. -/
def getHotelById (hotels : List Hotel) (id : Nat) : Option Hotel :=
  hotels.find? (fun hotel => hotel.id == id)

/-- Booking draft written by Hotel Details' `handleBooking`. -/
structure BookingData where
  hotelId : Nat
  hotelName : String
  roomType : RoomType
  checkIn : String
  checkOut : String
  guests : Nat
  totalPrice : Int
deriving DecidableEq, Repr

/-- Full state of the Zustand hotel store. -/
structure StoreState where
  hotels : List Hotel
  loading : Bool
  error : Option String
  searchResults : List Hotel
  favorites : List Nat
  bookingData : Option BookingData
  filters : Filters
deriving DecidableEq, Repr

/-- State the store is created with. -/
def initialStoreState : StoreState where
  hotels := sampleHotels
  loading := false
  error := none
  searchResults := []
  favorites := []
  bookingData := none
  filters := defaultFilters

/-- Partial filter object accepted by `setFilters`; a `none` field is absent
from the update object. -/
structure FiltersPatch where
  minPrice : Option Nat := none
  maxPrice : Option Nat := none
  location : Option String := none
  minRating : Option ℚ := none
  amenities : Option (List String) := none

/-- The store's `setFilters`: shallow spread-merge of the update object over
the current filters (`{ ...state.filters, ...newFilters }`). -/
def setFilters (f : Filters) (p : FiltersPatch) : Filters where
  minPrice := match p.minPrice with | some v => some v | none => f.minPrice
  maxPrice := match p.maxPrice with | some v => some v | none => f.maxPrice
  location := match p.location with | some v => some v | none => f.location
  minRating := match p.minRating with | some v => some v | none => f.minRating
  amenities := match p.amenities with | some v => some v | none => f.amenities

/-- The slice of state persisted to local storage under the fixed key
`hotel-storage` (the persist configuration of the store keeps only
`favorites` and `filters`). -/
structure PersistedState where
  favorites : List Nat
  filters : Filters
deriving DecidableEq, Repr

/-- Projection of the store state to its persisted slice, as configured in
the store's persist options. -/
def persistSlice (s : StoreState) : PersistedState where
  favorites := s.favorites
  filters := s.filters

/-- Store re-initialization from durable storage: the persist middleware
shallow-merges the stored slice over the freshly created initial state, so
only `favorites` and `filters` are restored. -/
def rehydrate (p : PersistedState) : StoreState :=
  { initialStoreState with favorites := p.favorites, filters := p.filters }

/-- The store's async `fetchHotelById`, as a state transformer: it first sets
`loading` and clears `error`, then resolves from the in-memory catalog; a
missing id raises `Hotel not found`, which is recorded in the error slot and
re-thrown, with `loading` cleared in both outcomes. -/
def fetchHotelById (s : StoreState) (id : Nat) : Except String Hotel × StoreState :=
  let s1 : StoreState := { s with loading := true, error := none }
  match getHotelById s1.hotels id with
  | some hotel => (Except.ok hotel, { s1 with loading := false })
  | none =>
      (Except.error "Hotel not found",
       { s1 with error := some "Hotel not found", loading := false })

/-! ## Explore Section (`components/ExploreSection.jsx`, functional variant) -/

/-- One entry of the recommendation response's `results` array. -/
structure RecItem where
  hotel_id : Nat
  hotel_name : String
  city : String
  star_rating : ℚ
  price_per_night : Nat
  combined_score : ℚ
  llm_explanation : String
  explanation : Option String
deriving DecidableEq, Repr

/-- Parsed JSON body of the recommendation response; `none` models an absent
or null field. -/
structure RecBody where
  status : Option String
  results : Option (List RecItem)
deriving DecidableEq, Repr

/-- Outcome of the `fetch` call as observed by `handleSearch`: either the
request threw (network/transport error) or a reply arrived with an `ok` flag
(2xx status) and a parsed body. -/
inductive HttpResult where
  | networkError
  | reply (ok : Bool) (body : RecBody)
deriving DecidableEq, Repr

/-- The Explore form's state (`formData` plus nothing else that
`handleSearch` validates). -/
structure ExploreForm where
  city : String
  preferred_amenities : List String
  budget_min_inr : Int
  budget_max_inr : Int
  min_star_rating : Nat
  top_n : Nat
deriving DecidableEq, Repr

/-- Observable outcome of one run of `handleSearch`: the (untouched) form,
the inline error message at the end of the run, the navigation performed (the
`results` payload carried to the Recommend route, if any), the loading flag
after the `finally` block, and whether the HTTP call was made at all. -/
structure ExploreOutcome where
  form : ExploreForm
  error : String
  navigated : Option (List RecItem)
  isLoading : Bool
  networkCalled : Bool
deriving DecidableEq, Repr

/-- Inline validation message for a missing destination. -/
def noDestinationMsg : String := "Please select a destination"

/-- Inline validation message for ill-ordered budgets. -/
def budgetOrderMsg : String := "Minimum budget should be less than maximum budget"

/-- Generic failure message shown for any request failure. -/
def recFailureMsg : String := "Failed to get recommendations. Please try again."

/-- The Explore Section's `handleSearch`, with the HTTP call's result passed
in as `net` (consumed only if validation passes).  Mirrors the source: the
two validation guards return early before any network activity; otherwise the
request is sent, a non-ok reply or a body without `status === 'success'` and
a truthy `results` field throws into the `catch` block, and `finally` clears
the loading flag. -/
def handleSearch (f : ExploreForm) (net : HttpResult) : ExploreOutcome :=
  if f.city = "" then
    { form := f, error := noDestinationMsg, navigated := none
    , isLoading := false, networkCalled := false }
  else if f.budget_max_inr ≤ f.budget_min_inr then
    { form := f, error := budgetOrderMsg, navigated := none
    , isLoading := false, networkCalled := false }
  else
    match net with
    | .networkError =>
        { form := f, error := recFailureMsg, navigated := none
        , isLoading := false, networkCalled := true }
    | .reply ok body =>
        if !ok then
          { form := f, error := recFailureMsg, navigated := none
          , isLoading := false, networkCalled := true }
        else if body.status = some "success" ∧ body.results.isSome then
          { form := f, error := "", navigated := body.results
          , isLoading := false, networkCalled := true }
        else
          { form := f, error := recFailureMsg, navigated := none
          , isLoading := false, networkCalled := true }

/-- Success condition of the recommendation reply as the code tests it: a
2xx reply whose body has `status = "success"` and a present (possibly empty)
`results` field; the carried payload is that `results` value. -/
def recSuccess : HttpResult → Option (List RecItem)
  | .reply true body => if body.status = some "success" then body.results else none
  | _ => none

/-! ## Hotel Details (`pages/HotelDetails.jsx`, store-backed variant) -/

/-- Value of a date input: the empty string or a calendar date
`yyyy-mm-dd`. -/
inductive DateField where
  | empty
  | date (y m d : Nat)
deriving DecidableEq, Repr

/-- Days from the civil epoch 1970-01-01 to year/month/day, the standard
`days_from_civil` computation; `new Date("yyyy-mm-dd")` yields this many days
times `86400000` milliseconds. -/
def daysFromCivil (y m d : Nat) : Int :=
  let y1 := if m ≤ 2 then y - 1 else y
  let era := y1 / 400
  let yoe := y1 % 400
  let mp := if m > 2 then m - 3 else m + 9
  let doy := (153 * mp + 2) / 5 + d - 1
  let doe := yoe * 365 + yoe / 4 - yoe / 100 + doy
  (era * 146097 + doe : Int) - 719468

/-- Milliseconds per day (`1000 * 60 * 60 * 24`). -/
def msPerDay : Int := 86400000

/-- Epoch milliseconds of a civil date at UTC midnight. -/
def dateMs (y m d : Nat) : Int :=
  daysFromCivil y m d * msPerDay

/-- Ceiling of the exact quotient `n / d` for `d > 0` (JS
`Math.ceil(n / d)` on the exact values occurring here). -/
def jsCeilDiv (n d : Int) : Int :=
  -((-n).fdiv d)

/-- Hotel Details' `calculateNights`: zero when either date is missing,
otherwise the ceiling of the date difference in days. -/
def calculateNights (checkIn checkOut : DateField) : Int :=
  match checkIn, checkOut with
  | .date y1 m1 d1, .date y2 m2 d2 =>
      jsCeilDiv (dateMs y2 m2 d2 - dateMs y1 m1 d1) msPerDay
  | _, _ => 0

/-- Hotel Details' `calculateTotalPrice`: zero when either date or the hotel
is missing, otherwise nights times the selected room type's nightly price.
An out-of-range room index cannot arise from the UI and is modelled as 0. -/
def calculateTotalPrice (checkIn checkOut : DateField) (hotel : Option Hotel)
    (selectedRoomType : Nat) : Int :=
  match checkIn, checkOut, hotel with
  | .date y1 m1 d1, .date y2 m2 d2, some h =>
      let nights := jsCeilDiv (dateMs y2 m2 d2 - dateMs y1 m1 d1) msPerDay
      match h.roomTypes.get? selectedRoomType with
      | some rt => nights * (rt.price : Int)
      | none => 0
  | _, _, _ => 0

/-! ## Star rendering (`renderStars`, shared by Search Results and Hotel
Details) -/

/-- Kind of one rendered star. -/
inductive StarKind where
  | filled
  | half
  | emptyStar
deriving DecidableEq, Repr

/-- The shared `renderStars` algorithm: `floor(rating)` filled stars, one
half star when `rating % 1 !== 0`, then `5 - ceil(rating)` empty stars (a
negative count runs the loop zero times, hence `Int.toNat`). -/
def renderStars (rating : ℚ) : List StarKind :=
  let fullStars := ⌊rating⌋
  let hasHalfStar := !rating.isInt
  List.replicate fullStars.toNat .filled ++
    (if hasHalfStar then [.half] else []) ++
    List.replicate (5 - ⌈rating⌉).toNat .emptyStar

/-! ## Helper lemmas -/

/-- A conditionally applied filter is the filter by the conditional
predicate. -/
theorem guard_filter {α : Type} (c : Prop) [Decidable c] (p : α → Bool) (l : List α) :
    (if c then l.filter p else l) = l.filter (fun b => if c then p b else true) := by
  by_cases h : c <;> simp [h]

/-- Reordering six conjuncts from the association produced by chained
`List.filter_filter` into the specification's order. -/
theorem bool_and_reorder6 : ∀ a b c d e f : Bool,
    (f && (e && (d && (c && (b && a))))) = (((((a && b) && c) && d) && e) && f) := by
  decide

/-- The store's search equals one filter of the whole catalog by the
specification predicate. -/
theorem searchHotels_eq_filter (hotels : List Hotel) (query : String) (f : Filters) :
    searchHotels hotels query f = hotels.filter (fun h => searchSpecHolds query f h) := by
  simp only [searchHotels]
  rw [guard_filter, guard_filter, guard_filter, guard_filter, guard_filter, guard_filter]
  simp only [List.filter_filter]
  refine List.filter_congr (fun x _ => ?_)
  simp only [searchSpecHolds]
  exact bool_and_reorder6 _ _ _ _ _ _

/-! ## Claim theorems -/

/-- C1: for every catalog, free-text query and filter set, `searchHotels`
returns exactly the hotels satisfying the conjunction of the query match (if
non-empty) and every filter predicate that is set; and on the three-hotel
sample catalog, `minPrice = 250, maxPrice = 350` with the other filters at
their defaults returns exactly the Grand Palace Hotel. -/
theorem search_filter_conjunction :
    (∀ (hotels : List Hotel) (query : String) (f : Filters),
      searchHotels hotels query f = hotels.filter (fun h => searchSpecHolds query f h)) ∧
    searchHotels sampleHotels ""
        { defaultFilters with minPrice := some 250, maxPrice := some 350 } =
      [grandPalaceHotel] :=
  ⟨searchHotels_eq_filter, rfl⟩

/-- C9: a falsy filter field disables its predicate: for every catalog and
query, all-zero/empty filters give the same result as the absent filter
object, a `maxPrice` of `0` alone also gives the same result, and on the
sample catalog `maxPrice = 0` returns the whole catalog rather than
excluding every hotel. -/
theorem falsy_filters_disable :
    (∀ (hotels : List Hotel) (query : String),
      searchHotels hotels query ⟨some 0, some 0, some "", some 0, some []⟩ =
        searchHotels hotels query noFilters) ∧
    (∀ (hotels : List Hotel) (query : String),
      searchHotels hotels query ⟨none, some 0, none, none, none⟩ =
        searchHotels hotels query noFilters) ∧
    searchHotels sampleHotels "" ⟨none, some 0, none, none, none⟩ = sampleHotels :=
  ⟨fun _ _ => rfl, fun _ _ => rfl, rfl⟩

/-- C6: adding an id twice equals adding it once, removing an absent id is a
no-op, and the favorite query is exactly membership. -/
theorem favorites_set_semantics :
    (∀ (l : List Nat) (x : Nat),
      addToFavorites (addToFavorites l x) x = addToFavorites l x) ∧
    (∀ (l : List Nat) (x : Nat), x ∉ l → removeFromFavorites l x = l) ∧
    (∀ (l : List Nat) (x : Nat), isFavorite l x = true ↔ x ∈ l) := by
  refine ⟨fun l x => ?_, fun l x hx => ?_, fun l x => ?_⟩
  · by_cases h : x ∈ l
    · have h1 : addToFavorites l x = l := by simp [addToFavorites, h]
      rw [h1, h1]
    · have h1 : addToFavorites l x = l ++ [x] := by simp [addToFavorites, h]
      have h2 : x ∈ l ++ [x] := by simp
      rw [h1]
      simp [addToFavorites, h2, h1]
  · refine List.filter_eq_self.mpr (fun a ha => ?_)
    rw [decide_eq_true_iff]
    intro h
    rw [h] at ha
    exact hx ha
  · simp [isFavorite]

/-- C6 witness: removing the non-member `7` from `[1, 3]` leaves it
unchanged. -/
theorem favorites_set_semantics_witness :
    (7 : Nat) ∉ [1, 3] ∧ removeFromFavorites [1, 3] 7 = [1, 3] :=
  ⟨by decide, favorites_set_semantics.2.1 [1, 3] 7 (by decide)⟩

/-- C7: the persisted-then-rehydrated round trip restores exactly the
favorites and filters of the saved state and resets every other slot to its
initial value; concretely, persisting favorites `{1, 3}` and filters with
`minRating 4` from a dirtied store yields exactly those favorites and
filters, the default catalog and empty search results. -/
theorem persistence_round_trip :
    (∀ s : StoreState,
      rehydrate (persistSlice s) =
        { hotels := sampleHotels, loading := false, error := none, searchResults := []
        , favorites := s.favorites, bookingData := none, filters := s.filters }) ∧
    rehydrate (persistSlice
      { hotels := [], loading := true, error := some "Hotel not found"
      , searchResults := [oceanviewResort]
      , favorites := addToFavorites (addToFavorites [] 1) 3
      , bookingData := some
          { hotelId := 1, hotelName := "Grand Palace Hotel"
          , roomType :=
              { type := "Standard Room", price := 299
              , description := "Comfortable room with city view"
              , features := ["King Bed", "City View", "32\" TV", "Mini Bar"] }
          , checkIn := "2025-06-01", checkOut := "2025-06-04"
          , guests := 2, totalPrice := 897 }
      , filters := setFilters defaultFilters { minRating := some 4 } }) =
      { hotels := sampleHotels, loading := false, error := none, searchResults := []
      , favorites := [1, 3], bookingData := none
      , filters := { minPrice := some 0, maxPrice := some 1000, location := some ""
                   , minRating := some 4, amenities := some [] } } :=
  ⟨fun _ => rfl, rfl⟩

/-- C8: `fetchHotelById` resolves a matching id to that hotel with loading
cleared, and a missing id to a rejected `Hotel not found` whose message is
recorded in the error slot, loading cleared and every other slot (hotels,
favorites, filters, booking draft, search results) untouched. -/
theorem fetch_by_id_semantics :
    ∀ (s : StoreState) (id : Nat),
      (∀ h, getHotelById s.hotels id = some h →
        fetchHotelById s id = (Except.ok h, { s with loading := false, error := none })) ∧
      (getHotelById s.hotels id = none →
        fetchHotelById s id =
          (Except.error "Hotel not found",
           { s with loading := false, error := some "Hotel not found" })) := by
  intro s id
  constructor
  · intro h hh
    simp [fetchHotelById, hh]
  · intro hn
    simp [fetchHotelById, hn]

/-- C8 witness: on the initial store, id 1 resolves to the Grand Palace
Hotel and id 99 rejects with `Hotel not found` recorded in the error slot. -/
theorem fetch_by_id_semantics_witness :
    fetchHotelById initialStoreState 1 =
      (Except.ok grandPalaceHotel,
       { initialStoreState with loading := false, error := none }) ∧
    fetchHotelById initialStoreState 99 =
      (Except.error "Hotel not found",
       { initialStoreState with loading := false, error := some "Hotel not found" }) :=
  ⟨(fetch_by_id_semantics initialStoreState 1).1 grandPalaceHotel rfl,
   (fetch_by_id_semantics initialStoreState 99).2 rfl⟩

/-- C5: with an empty destination city the submission performs no network
call and surfaces the destination message; with minimum budget ≥ maximum
budget it performs no network call and surfaces the budget-ordering message;
in both cases the form is returned verbatim, so its field values are not
cleared. -/
theorem explore_validation :
    ∀ (f : ExploreForm) (net : HttpResult),
      (f.city = "" →
        handleSearch f net =
          { form := f, error := noDestinationMsg, navigated := none
          , isLoading := false, networkCalled := false }) ∧
      (f.city ≠ "" → f.budget_max_inr ≤ f.budget_min_inr →
        handleSearch f net =
          { form := f, error := budgetOrderMsg, navigated := none
          , isLoading := false, networkCalled := false }) := by
  intro f net
  constructor
  · intro hc
    simp [handleSearch, hc]
  · intro hc hb
    simp [handleSearch, hc, hb]

/-- C5 witness: submitting with no city, and submitting with
`minBudget = 10000, maxBudget = 5000`, both reject without a network call. -/
theorem explore_validation_witness :
    handleSearch ⟨"", [], 1000, 10000, 2, 5⟩ HttpResult.networkError =
      { form := ⟨"", [], 1000, 10000, 2, 5⟩, error := noDestinationMsg
      , navigated := none, isLoading := false, networkCalled := false } ∧
    handleSearch ⟨"Mumbai", [], 10000, 5000, 2, 5⟩ HttpResult.networkError =
      { form := ⟨"Mumbai", [], 10000, 5000, 2, 5⟩, error := budgetOrderMsg
      , navigated := none, isLoading := false, networkCalled := false } :=
  ⟨(explore_validation ⟨"", [], 1000, 10000, 2, 5⟩ HttpResult.networkError).1 rfl,
   (explore_validation ⟨"Mumbai", [], 10000, 5000, 2, 5⟩ HttpResult.networkError).2
     (by decide) (by decide)⟩

/-- C2 counterexample: on a 2xx reply with `status = "success"` and an EMPTY
results list, `handleSearch` does navigate (with the empty payload) and does
not show the failure message, contrary to the claim that an empty results
list is treated as a failure. -/
theorem explore_empty_results_navigates :
    (handleSearch ⟨"Mumbai", [], 1000, 10000, 2, 5⟩
        (.reply true ⟨some "success", some []⟩)).navigated = some [] ∧
    (handleSearch ⟨"Mumbai", [], 1000, 10000, 2, 5⟩
        (.reply true ⟨some "success", some []⟩)).error ≠ recFailureMsg := by
  constructor
  · decide
  · decide

/-- C2 (amended): for every response of a validated submission, the handler
navigates exactly when the reply is 2xx with body status `"success"` and a
present results field — even an empty list; in every other case (network
error, non-2xx, wrong status, absent results) it does not navigate and shows
the generic failure message; the loading flag ends cleared and the form is
untouched in all cases. -/
theorem explore_response_handling :
    ∀ (f : ExploreForm) (net : HttpResult),
      f.city ≠ "" → f.budget_min_inr < f.budget_max_inr →
      handleSearch f net =
        match recSuccess net with
        | some rs =>
            { form := f, error := "", navigated := some rs
            , isLoading := false, networkCalled := true }
        | none =>
            { form := f, error := recFailureMsg, navigated := none
            , isLoading := false, networkCalled := true } := by
  intro f net hc hb
  have hb' : ¬ f.budget_max_inr ≤ f.budget_min_inr := not_le.mpr hb
  cases net with
  | networkError => simp [handleSearch, recSuccess, hc, hb']
  | reply ok body =>
    rcases body with ⟨st, rs⟩
    cases ok with
    | false => simp [handleSearch, recSuccess, hc, hb']
    | true =>
      by_cases hs : st = some "success"
      · cases rs with
        | none => simp [handleSearch, recSuccess, hc, hb', hs]
        | some l => simp [handleSearch, recSuccess, hc, hb', hs]
      · cases rs with
        | none => simp [handleSearch, recSuccess, hc, hb', hs]
        | some l => simp [handleSearch, recSuccess, hc, hb', hs]

/-- C2 amended-theorem witness: a validated submission receiving a 2xx
`"success"` reply with a one-element results list navigates with exactly
that payload. -/
theorem explore_response_handling_witness :
    handleSearch ⟨"Mumbai", [], 1000, 10000, 2, 5⟩
        (.reply true ⟨some "success",
          some [⟨11, "Taj Mahal Palace", "Mumbai", 5, 9000, mkRat 873 1000,
                 "Great match", none⟩]⟩) =
      { form := ⟨"Mumbai", [], 1000, 10000, 2, 5⟩, error := ""
      , navigated := some [⟨11, "Taj Mahal Palace", "Mumbai", 5, 9000, mkRat 873 1000,
                            "Great match", none⟩]
      , isLoading := false, networkCalled := true } :=
  explore_response_handling ⟨"Mumbai", [], 1000, 10000, 2, 5⟩
    (.reply true ⟨some "success",
      some [⟨11, "Taj Mahal Palace", "Mumbai", 5, 9000, mkRat 873 1000,
             "Great match", none⟩]⟩)
    (by decide) (by decide)

/-- On two present dates the night count is exactly the difference of the
civil day numbers: the millisecond difference is a whole number of days, so
the ceiling in `calculateNights` is exact. -/
theorem calculateNights_date (y1 m1 d1 y2 m2 d2 : Nat) :
    calculateNights (.date y1 m1 d1) (.date y2 m2 d2) =
      daysFromCivil y2 m2 d2 - daysFromCivil y1 m1 d1 := by
  show jsCeilDiv (dateMs y2 m2 d2 - dateMs y1 m1 d1) msPerDay = _
  have hms : (msPerDay : Int) ≠ 0 := by decide
  rw [jsCeilDiv, dateMs, dateMs, ← sub_mul, ← neg_mul, Int.mul_fdiv_cancel _ hms, neg_neg]

/-- With a hotel present and the selected room type in range, the total
price is the night count times that room type's nightly price (also when a
date is missing, where both sides are zero). -/
theorem calculateTotalPrice_eq (ci co : DateField) (h : Hotel) (i : Nat)
    (rt : RoomType) (hrt : h.roomTypes.get? i = some rt) :
    calculateTotalPrice ci co (some h) i = calculateNights ci co * rt.price := by
  have hrt' : h.roomTypes[i]? = some rt := by
    rw [← List.get?_eq_getElem?]; exact hrt
  cases ci <;> cases co <;> simp [calculateTotalPrice, calculateNights, hrt']

/-- C3: a missing check-in or check-out date makes nights and total price
zero; on present dates the nights are the exact day difference (the ceiling
of the millisecond difference in days) and the total is nights times the
selected room type's price; concretely 2025-06-01 to 2025-06-04 at nightly
price 299 gives 3 nights and a 897 total. -/
theorem nights_price_computation :
    (∀ (co : DateField) (hotel : Option Hotel) (i : Nat),
      calculateNights .empty co = 0 ∧ calculateTotalPrice .empty co hotel i = 0) ∧
    (∀ (ci : DateField) (hotel : Option Hotel) (i : Nat),
      calculateNights ci .empty = 0 ∧ calculateTotalPrice ci .empty hotel i = 0) ∧
    (∀ y1 m1 d1 y2 m2 d2 : Nat,
      calculateNights (.date y1 m1 d1) (.date y2 m2 d2) =
        daysFromCivil y2 m2 d2 - daysFromCivil y1 m1 d1) ∧
    (∀ (ci co : DateField) (h : Hotel) (i : Nat) (rt : RoomType),
      h.roomTypes.get? i = some rt →
      calculateTotalPrice ci co (some h) i = calculateNights ci co * rt.price) ∧
    (calculateNights (.date 2025 6 1) (.date 2025 6 4) = 3 ∧
     calculateTotalPrice (.date 2025 6 1) (.date 2025 6 4) (some grandPalaceHotel) 0 = 897) := by
  refine ⟨fun co hotel i => ?_, fun ci hotel i => ?_,
          calculateNights_date, fun ci co h i rt hrt => calculateTotalPrice_eq ci co h i rt hrt,
          by decide, by decide⟩
  · cases co <;> cases hotel <;> exact ⟨rfl, rfl⟩
  · cases ci <;> cases hotel <;> exact ⟨rfl, rfl⟩

/-- C3 witness: on 2025-06-01 to 2025-06-04 with the Grand Palace Hotel's
first room type (nightly price 299) the total is nights times 299. -/
theorem nights_price_computation_witness :
    calculateTotalPrice (.date 2025 6 1) (.date 2025 6 4) (some grandPalaceHotel) 0 =
      calculateNights (.date 2025 6 1) (.date 2025 6 4) * 299 :=
  nights_price_computation.2.2.2.1 (.date 2025 6 1) (.date 2025 6 4)
    grandPalaceHotel 0
    { type := "Standard Room", price := 299
    , description := "Comfortable room with city view"
    , features := ["King Bed", "City View", "32\" TV", "Mini Bar"] } rfl

/-- C10: when both dates are present and the check-out day precedes the
check-in day, the night count is negative and, with a positive nightly
price, the total price is negative — the computation applies no clamping. -/
theorem ill_ordered_dates_negative :
    ∀ (y1 m1 d1 y2 m2 d2 : Nat) (h : Hotel) (i : Nat) (rt : RoomType),
      daysFromCivil y2 m2 d2 < daysFromCivil y1 m1 d1 →
      h.roomTypes.get? i = some rt → 0 < rt.price →
      calculateNights (.date y1 m1 d1) (.date y2 m2 d2) < 0 ∧
      calculateTotalPrice (.date y1 m1 d1) (.date y2 m2 d2) (some h) i < 0 := by
  intro y1 m1 d1 y2 m2 d2 h i rt hlt hrt hp
  have hn : calculateNights (.date y1 m1 d1) (.date y2 m2 d2) < 0 := by
    rw [calculateNights_date]; omega
  refine ⟨hn, ?_⟩
  rw [calculateTotalPrice_eq _ _ _ _ _ hrt]
  exact mul_neg_of_neg_of_pos hn (by exact_mod_cast hp)

/-- C10 witness: check-in 2025-06-04 with check-out 2025-06-01 on the Grand
Palace Hotel's first room type yields negative nights and a negative
total. -/
theorem ill_ordered_dates_negative_witness :
    calculateNights (.date 2025 6 4) (.date 2025 6 1) < 0 ∧
    calculateTotalPrice (.date 2025 6 4) (.date 2025 6 1) (some grandPalaceHotel) 0 < 0 :=
  ill_ordered_dates_negative 2025 6 4 2025 6 1 grandPalaceHotel 0
    { type := "Standard Room", price := 299
    , description := "Comfortable room with city view"
    , features := ["King Bed", "City View", "32\" TV", "Mini Bar"] }
    (by decide) rfl (by decide)

/-- An integral rational has equal ceiling and floor. -/
theorem ceil_eq_floor_of_isInt (r : ℚ) (h : r.isInt = true) : ⌈r⌉ = ⌊r⌋ := by
  have hd : r.den = 1 := by simpa [Rat.isInt] using h
  have hr : (r.num : ℚ) = r := (Rat.den_eq_one_iff r).mp hd
  rw [← hr, Int.ceil_intCast, Int.floor_intCast]

/-- A non-integral rational has ceiling one above its floor. -/
theorem ceil_eq_floor_add_one_of_not_isInt (r : ℚ) (h : r.isInt = false) :
    ⌈r⌉ = ⌊r⌋ + 1 := by
  have hd : r.den ≠ 1 := by simpa [Rat.isInt] using h
  have hne : ((⌊r⌋ : ℚ)) ≠ r := by
    intro he
    exact hd (by rw [← he]; exact Rat.den_intCast ⌊r⌋)
  have hlt : (⌊r⌋ : ℚ) < r := lt_of_le_of_ne (Int.floor_le r) hne
  have h1 : ⌊r⌋ + 1 ≤ ⌈r⌉ := by
    have := Int.lt_ceil.mpr hlt
    omega
  have h2 : ⌈r⌉ ≤ ⌊r⌋ + 1 := by
    apply Int.ceil_le.mpr
    push_cast
    exact le_of_lt (Int.lt_floor_add_one r)
  omega

/-- C4: for every rating in `[0, 5]`, `renderStars` renders exactly
`floor(rating)` filled stars, one half star exactly when the rating is not
an integer, `5 - ceil(rating)` empty stars, and five stars in total; and the
four concrete renderings for ratings 4, 4.5, 0 and 5 are as specified. -/
theorem star_rendering :
    (∀ r : ℚ, 0 ≤ r → r ≤ 5 →
      (renderStars r).count .filled = ⌊r⌋.toNat ∧
      (renderStars r).count .half = (if r.isInt then 0 else 1) ∧
      (renderStars r).count .emptyStar = (5 - ⌈r⌉).toNat ∧
      (renderStars r).length = 5) ∧
    renderStars 4 = [.filled, .filled, .filled, .filled, .emptyStar] ∧
    renderStars (mkRat 9 2) = [.filled, .filled, .filled, .filled, .half] ∧
    renderStars 0 = [.emptyStar, .emptyStar, .emptyStar, .emptyStar, .emptyStar] ∧
    renderStars 5 = [.filled, .filled, .filled, .filled, .filled] := by
  refine ⟨fun r h0 h5 => ?_, by decide, by decide, by decide, by decide⟩
  have hfl : (0 : ℤ) ≤ ⌊r⌋ := Int.floor_nonneg.mpr h0
  have hcl : ⌈r⌉ ≤ 5 := Int.ceil_le.mpr (by exact_mod_cast h5)
  cases hint : r.isInt with
  | true =>
    have hc := ceil_eq_floor_of_isInt r hint
    refine ⟨?_, ?_, ?_, ?_⟩ <;>
      simp [renderStars, hint, List.count_append, List.count_replicate] <;>
      omega
  | false =>
    have hc := ceil_eq_floor_add_one_of_not_isInt r hint
    refine ⟨?_, ?_, ?_, ?_⟩ <;>
      simp [renderStars, hint, List.count_append, List.count_replicate] <;>
      omega

/-- C4 witness: the universal star-count statement applied at rating 9/2
gives 4 filled, 1 half, 0 empty and 5 stars in total. -/
theorem star_rendering_witness :
    (renderStars (mkRat 9 2)).count .filled = 4 ∧
    (renderStars (mkRat 9 2)).count .half = 1 ∧
    (renderStars (mkRat 9 2)).count .emptyStar = 0 ∧
    (renderStars (mkRat 9 2)).length = 5 := by
  have h := star_rendering.1 (mkRat 9 2) (by decide) (by decide)
  exact ⟨h.1.trans (by decide), h.2.1.trans (by decide),
         h.2.2.1.trans (by decide), h.2.2.2⟩

end HotelFinder
